import Mathlib

/-!
A shallow embedding of the citro3d-rs core: the uniform-binding subsystem
(src/citro3d/src/uniform.rs) and the Instance lifecycle
(src/citro3d/src/lib.rs). Calls into the external driver (citro3d_sys)
are modelled as events in a trace; a failing assert! (Rust fail-fast) is
modelled as Option.none; driver results that the wrapper merely relays
(C3D_Init, C3D_FrameDrawOn booleans) are free Boolean inputs.
-/

namespace Citro3d

/-- Shader stage. Modelled from the spec: shader::Type
(src/citro3d/src/shader.rs is not among the sources); the spec splits
uniform uploads by shader stage, vertex or geometry. -/
inductive Stage where
  | vertex
  | geometry
deriving DecidableEq

/-- A float 4-vector. Modelled from the spec: math::FVec4 (the math module
is not among the sources) is an opaque value with x/y/z/w accessors. The
binder only copies components into registers and never computes with
them, so Int stands in for the f32 payload. -/
structure FVec4 where
  x : Int
  y : Int
  z : Int
  w : Int
deriving DecidableEq

/-- An integer 4-vector. Modelled from the spec: math::IVec, four packed
components read through x/y/z/w accessors and cast to i32 at the call
site in Uniform::bind. -/
structure IVec where
  x : Int
  y : Int
  z : Int
  w : Int
deriving DecidableEq

/-- A 4x4 matrix. Modelled from the spec: math::Matrix4 as four rows in
natural order r0, r1, r2, r3. -/
structure Matrix4 where
  r0 : FVec4
  r1 : FVec4
  r2 : FVec4
  r3 : FVec4
deriving DecidableEq

/-- Modelled from the spec: math::Matrix4::rows_wzyx (math module not
among the sources). The spec says the matrix rows are supplied in
reverse (w-z-y-x) order to match the hardware register layout, i.e. last
row first. -/
def Matrix4.rows_wzyx (m : Matrix4) : List FVec4 :=
  [m.r3, m.r2, m.r1, m.r0]

/-- std::ops::Range of Index as returned by Uniform::index_range. Rust's
field name end is a Lean keyword, hence the guillemets. -/
structure URange where
  start : Nat
  «end» : Nat
deriving DecidableEq

/-- std's Range::contains: start <= i && i < end. -/
def URange.contains (r : URange) (i : Nat) : Bool :=
  decide (r.start ≤ i) && decide (i < r.«end»)

/-- The Uniform enum of src/citro3d/src/uniform.rs. Rust's fixed arrays
of FVec4 are embedded as tuples. -/
inductive Uniform where
  | Float (f : FVec4)
  | Float2 (fs : FVec4 × FVec4)
  | Float3 (fs : FVec4 × FVec4 × FVec4)
  | Float4 (m : Matrix4)
  | Bool (b : Bool)
  | Int (i : IVec)
deriving DecidableEq

/-- Uniform::index_range: the register bank valid for the variant. -/
def Uniform.index_range : Uniform → URange
  | .Float _ | .Float2 _ | .Float3 _ | .Float4 _ => ⟨0x00, 0x60⟩
  | .Int _ => ⟨0x60, 0x64⟩
  | .Bool _ => ⟨0x68, 0x79⟩

/-- Uniform::len: how many registers the variant writes to. -/
def Uniform.len : Uniform → Nat
  | .Float _ => 1
  | .Float2 _ => 2
  | .Float3 _ => 3
  | .Float4 _ => 4
  | .Bool _ | .Int _ => 1

/-- One call into a hardware register-write primitive of citro3d_sys, the
observable effect of a uniform upload. -/
inductive RegWrite where
  | fvUnifSet (ty : Stage) (idx : Nat) (x y z w : Int)
  | boolUnifSet (ty : Stage) (idx : Nat) (b : Bool)
  | ivUnifSet (ty : Stage) (idx : Nat) (x y z w : Int)
  | fvUnifMtx4x4 (ty : Stage) (idx : Int) (m : Matrix4)
deriving DecidableEq

/-- The set_fvs closure inside Uniform::bind: one C3D_FVUnifSet per
element, at consecutive indices index + 0, index + 1, ... -/
def set_fvs (ty : Stage) (index : Nat) (fs : List FVec4) : List RegWrite :=
  fs.enum.map fun p => RegWrite.fvUnifSet ty (index + p.1) p.2.x p.2.y p.2.z p.2.w

/-- Uniform::bind. The two assert!s are embedded as the two guards, with
none for a failed assert (fail-fast); on success, the list of register
writes the match issues. -/
def Uniform.bind (u : Uniform) (ty : Stage) (index : Nat) :
    Option (List RegWrite) :=
  if u.index_range.contains index then
    if u.len + index ≤ u.index_range.«end» then
      some (match u with
        | .Bool b => [RegWrite.boolUnifSet ty index b]
        | .Int i => [RegWrite.ivUnifSet ty index i.x i.y i.z i.w]
        | .Float f => set_fvs ty index [f]
        | .Float2 fs => set_fvs ty index [fs.1, fs.2]
        | .Float3 fs => set_fvs ty index [fs.1, fs.2.1, fs.2.2]
        | .Float4 m => set_fvs ty index m.rows_wzyx)
    else none
  else none

/-- The Instance unit struct of src/citro3d/src/lib.rs: it stores nothing
itself; all durable state lives in the driver's globals. -/
structure Instance where
deriving DecidableEq

/-- The two variants of crate::error::Error that lib.rs uses (error.rs is
not among the sources; the constructor names are those at the lib.rs call
sites — the spec calls them InitializationFailure and
InvalidRenderTarget). -/
inductive Error where
  | FailedToInitialize
  | InvalidRenderTarget
deriving DecidableEq

/-- The driver-global state visible through the wrapper. bufInfo/attrInfo
are the descriptors held by the driver (C3D_Get/SetBufInfo and
C3D_Get/SetAttrInfo; copy-by-value per the SAFETY comments and the spec),
with B and A the payloads of buffer::Info and attrib::Info, opaque here
(buffer.rs and attrib.rs are not among the sources). liveInstances is
ghost instrumentation counting the Instance values currently alive, used
to state the at-most-one-Instance claim; the wrapper itself never reads
it. -/
structure HwState (B A : Type) where
  liveInstances : Nat
  bufInfo : Option B
  attrInfo : Option A
deriving DecidableEq

/-- Instance::with_cmdbuf_size. hwInitOk is the Boolean the external
C3D_Init(size) call reports (the driver is an external collaborator; the
spec gives only init(size) → bool). On success the Rust code returns
Ok(Self) — ghost liveInstances increments; on failure it returns
Err(Error::FailedToInitialize) and no Instance. Instance::new delegates
here with the external default C3D_DEFAULT_CMDBUF_SIZE constant as size. -/
def Instance.with_cmdbuf_size {B A : Type} (size : Nat) (st : HwState B A)
    (hwInitOk : Bool) : Except Error Instance × HwState B A :=
  let _ := size
  if hwInitOk then
    (Except.ok ⟨⟩, { st with liveInstances := st.liveInstances + 1 })
  else
    (Except.error Error.FailedToInitialize, st)

/-- Instance::select_render_target. hwDrawOnOk is the Boolean the external
C3D_FrameDrawOn(target) call reports. The wrapper itself touches no
state (the body starts with discarding self); target binding lives in the
external driver. -/
def Instance.select_render_target {B A : Type} (st : HwState B A)
    (hwDrawOnOk : Bool) : Except Error Unit × HwState B A :=
  if hwDrawOnOk then (Except.ok (), st)
  else (Except.error Error.InvalidRenderTarget, st)

/-- Instance::set_buffer_info: C3D_SetBufInfo copies the pointee into the
driver's active slot (copy-by-value, per the SAFETY comment). -/
def Instance.set_buffer_info {B A : Type} (st : HwState B A) (b : B) :
    HwState B A :=
  { st with bufInfo := some b }

/-- Instance::buffer_info: C3D_GetBufInfo, then buffer::Info::copy_from.
Modelled from the spec: copy_from (buffer.rs is not among the sources)
returns a snapshot copy of the bound descriptor, or none when nothing is
bound. -/
def Instance.buffer_info {B A : Type} (st : HwState B A) : Option B :=
  st.bufInfo

/-- Instance::set_attr_info: C3D_SetAttrInfo copies the pointee into the
driver's active slot (copy-by-value, per the SAFETY comment). -/
def Instance.set_attr_info {B A : Type} (st : HwState B A) (a : A) :
    HwState B A :=
  { st with attrInfo := some a }

/-- Instance::attr_info: C3D_GetAttrInfo, then attrib::Info::copy_from.
Modelled from the spec: copy_from (attrib.rs is not among the sources)
returns a snapshot copy, or none when nothing is bound. -/
def Instance.attr_info {B A : Type} (st : HwState B A) : Option A :=
  st.attrInfo

/-- The observable steps of a render_frame_with call: the two hardware
frame calls, plus whatever the caller-supplied closure does (abstracted
as opaque numbered steps; a nested call would contribute frame events of
its own). -/
inductive FrameEvent where
  | frameBegin
  | frameEnd (flags : Nat)
  | callbackStep (n : Nat)
deriving DecidableEq

/-- Instance::render_frame_with, straight-line as in the source:
C3D_FrameBegin(C3D_FRAME_SYNCDRAW), then f(self), then C3D_FrameEnd(0).
frameBegin carries no payload because the begin flag is the external
C3D_FRAME_SYNCDRAW constant. The callback f is given by its observable
behaviour: the events it performs and whether it panics (Rust
unwinding). There is no guard or catch around f(self), so when f panics
the unwind propagates before the C3D_FrameEnd call is reached; the
returned Bool says whether the call as a whole unwinds. -/
def Instance.render_frame_with (fEvents : List FrameEvent) (fPanics : Bool) :
    List FrameEvent × Bool :=
  if fPanics then
    (FrameEvent.frameBegin :: fEvents, true)
  else
    (FrameEvent.frameBegin :: (fEvents ++ [FrameEvent.frameEnd 0]), false)

/-- Instance::update_vertex_uniform_mat4x4: one unconditional
C3D_FVUnifMtx4x4 call on the vertex stage at the given raw index (an i8
in the source, sign-extended to i32 by .into(); Int covers every i8
value), with no range check and no assert. The Option return aligns this
with Uniform.bind, where none is a fail-fast: here the result is always
some. -/
def Instance.update_vertex_uniform_mat4x4 (index : Int) (m : Matrix4) :
    Option (List RegWrite) :=
  some [RegWrite.fvUnifMtx4x4 Stage.vertex index m]

/-- C7: for every Uniform value, index_range() is exactly the bank of the
§3 table — [0x00, 0x60) for the four Float variants, [0x60, 0x64) for
Int, [0x68, 0x79) for Bool — and any two different banks share no
index. -/
theorem uniform_index_range_banks_disjoint :
    (∀ f, (Uniform.Float f).index_range = ⟨0x00, 0x60⟩) ∧
    (∀ fs, (Uniform.Float2 fs).index_range = ⟨0x00, 0x60⟩) ∧
    (∀ fs, (Uniform.Float3 fs).index_range = ⟨0x00, 0x60⟩) ∧
    (∀ m, (Uniform.Float4 m).index_range = ⟨0x00, 0x60⟩) ∧
    (∀ i, (Uniform.Int i).index_range = ⟨0x60, 0x64⟩) ∧
    (∀ b, (Uniform.Bool b).index_range = ⟨0x68, 0x79⟩) ∧
    (∀ u v : Uniform, ∀ j : Nat,
      u.index_range ≠ v.index_range →
      (u.index_range.contains j && v.index_range.contains j) = false) := by
  refine ⟨fun _ => rfl, fun _ => rfl, fun _ => rfl, fun _ => rfl,
    fun _ => rfl, fun _ => rfl, ?_⟩
  intro u v j hne
  cases u <;> cases v <;>
    first
      | exact absurd rfl hne
      | (simp [Uniform.index_range, URange.contains]; omega)

/-- C10: every Uniform variant has positive length no greater than the
width of its bank, so the valid binding sub-range is never empty. -/
theorem uniform_len_fits_bank :
    ∀ u : Uniform,
      1 ≤ u.len ∧ u.len ≤ u.index_range.«end» - u.index_range.start := by
  intro u
  cases u <;> simp [Uniform.len, Uniform.index_range]

/-- C2: Bool(true) binds at 0x70 with exactly one boolean-register write;
Bool(true) at 0x79 fails-fast; Int (length 1, range end 0x64) binds at
0x63. -/
theorem bind_scenarios_bool_int :
    ((Uniform.Bool true).bind Stage.vertex 0x70 =
        some [RegWrite.boolUnifSet Stage.vertex 0x70 true]) ∧
    ((Uniform.Bool true).bind Stage.vertex 0x79 = none) ∧
    ((Uniform.Int ⟨1, 2, 3, 4⟩).bind Stage.vertex 0x63 =
        some [RegWrite.ivUnifSet Stage.vertex 0x63 1 2 3 4]) := by
  decide

/-- C6: update_vertex_uniform_mat4x4 issues the vertex-stage matrix write
at the given raw index for every index value — every i8, negative and
out-of-bank indices included — and never fails fast: it performs none of
the validation Uniform.bind enforces. -/
theorem update_vertex_uniform_mat4x4_unchecked :
    ∀ (index : Int) (m : Matrix4),
      Instance.update_vertex_uniform_mat4x4 index m =
        some [RegWrite.fvUnifMtx4x4 Stage.vertex index m] :=
  fun _ _ => rfl

/-- C9: setting buffer info and reading it back returns the same
descriptor by value, and likewise for attribute info. -/
theorem info_set_get_roundtrip {B A : Type} (st : HwState B A) (b : B) (a : A) :
    Instance.buffer_info (Instance.set_buffer_info st b) = some b ∧
    Instance.attr_info (Instance.set_attr_info st a) = some a :=
  ⟨rfl, rfl⟩

/-- C1 as stated is false at the Int variant and index 0x63: the claim
places every i with i ≥ index_range().end − len() (here 0x64 − 1 = 0x63)
in the fail-fast zone, but bind succeeds there. -/
theorem bind_succeeds_at_bank_end_minus_len :
    ((Uniform.Int ⟨0, 0, 0, 0⟩).index_range.«end» -
        (Uniform.Int ⟨0, 0, 0, 0⟩).len ≤ 0x63) ∧
    ((Uniform.Int ⟨0, 0, 0, 0⟩).bind Stage.vertex 0x63).isSome = true := by
  decide

/-- C1 amended: for every variant, stage and index, bind succeeds exactly
when index_range().start ≤ i and i + len() ≤ index_range().end — the
closed range [start, end − len()] — and fails-fast for every other i, in
particular for every i with i > end − len(). -/
theorem bind_isSome_iff (u : Uniform) (ty : Stage) (i : Nat) :
    (u.bind ty i).isSome = true ↔
      u.index_range.start ≤ i ∧ i + u.len ≤ u.index_range.«end» := by
  have hlen : 1 ≤ u.len := by cases u <;> simp [Uniform.len]
  unfold Uniform.bind
  split_ifs with h1 h2
  · simp only [Option.isSome_some, true_iff]
    simp only [URange.contains, Bool.and_eq_true, decide_eq_true_eq] at h1
    omega
  · simp only [Option.isSome_none, Bool.false_eq_true, false_iff]
    rintro ⟨-, hle⟩
    exact h2 (by omega)
  · simp only [Option.isSome_none, Bool.false_eq_true, false_iff]
    simp only [URange.contains, Bool.and_eq_true, decide_eq_true_eq, not_and,
      not_lt] at h1
    rintro ⟨hs, hle⟩
    have := h1 hs
    omega

/-- C3: with an index valid for the variant, Float4 issues exactly four
float-register writes at i, i+1, i+2, i+3 carrying rows r3, r2, r1, r0 —
the reversed (w-z-y-x) row order, not the natural one — and Float2 and
Float3 issue exactly 2 and 3 float-register writes at consecutive
increasing indices starting at i. -/
theorem bind_float_traces (ty : Stage) (i : Nat) (m : Matrix4)
    (a b c : FVec4) :
    (i + 4 ≤ 0x60 → (Uniform.Float4 m).bind ty i =
      some [RegWrite.fvUnifSet ty i m.r3.x m.r3.y m.r3.z m.r3.w,
            RegWrite.fvUnifSet ty (i + 1) m.r2.x m.r2.y m.r2.z m.r2.w,
            RegWrite.fvUnifSet ty (i + 2) m.r1.x m.r1.y m.r1.z m.r1.w,
            RegWrite.fvUnifSet ty (i + 3) m.r0.x m.r0.y m.r0.z m.r0.w]) ∧
    (i + 2 ≤ 0x60 → (Uniform.Float2 (a, b)).bind ty i =
      some [RegWrite.fvUnifSet ty i a.x a.y a.z a.w,
            RegWrite.fvUnifSet ty (i + 1) b.x b.y b.z b.w]) ∧
    (i + 3 ≤ 0x60 → (Uniform.Float3 (a, b, c)).bind ty i =
      some [RegWrite.fvUnifSet ty i a.x a.y a.z a.w,
            RegWrite.fvUnifSet ty (i + 1) b.x b.y b.z b.w,
            RegWrite.fvUnifSet ty (i + 2) c.x c.y c.z c.w]) := by
  refine ⟨fun h => ?_, fun h => ?_, fun h => ?_⟩ <;>
    · rw [Uniform.bind, if_pos (by simp [Uniform.index_range, URange.contains]; omega),
        if_pos (by simp [Uniform.len, Uniform.index_range]; omega)]
      simp [set_fvs, Matrix4.rows_wzyx, List.enum, List.enumFrom]

/-- Witness for C3 at a concrete matrix, vectors and index 7. -/
theorem bind_float_traces_witness :
    (Uniform.Float4 ⟨⟨1, 2, 3, 4⟩, ⟨5, 6, 7, 8⟩, ⟨9, 10, 11, 12⟩,
        ⟨13, 14, 15, 16⟩⟩).bind Stage.vertex 7 =
      some [RegWrite.fvUnifSet Stage.vertex 7 13 14 15 16,
            RegWrite.fvUnifSet Stage.vertex 8 9 10 11 12,
            RegWrite.fvUnifSet Stage.vertex 9 5 6 7 8,
            RegWrite.fvUnifSet Stage.vertex 10 1 2 3 4] :=
  (bind_float_traces Stage.vertex 7
    ⟨⟨1, 2, 3, 4⟩, ⟨5, 6, 7, 8⟩, ⟨9, 10, 11, 12⟩, ⟨13, 14, 15, 16⟩⟩
    ⟨0, 0, 0, 0⟩ ⟨0, 0, 0, 0⟩ ⟨0, 0, 0, 0⟩).1 (by omega)

/-- C4 as stated is false: when the callback panics, the unwind propagates
past the C3D_FrameEnd call — the render_frame_with call issues no
frame-end at all. -/
theorem render_frame_no_end_on_panic :
    ((Instance.render_frame_with [] true).1.count (FrameEvent.frameEnd 0) = 0) ∧
    (Instance.render_frame_with [] true).2 = true := by
  decide

/-- C4 amended: when the callback returns normally, the call issues
exactly one frame-end of its own, placed after the frame-begin and after
every callback event; when the callback panics, the unwind propagates
and the call issues no frame-end. -/
theorem render_frame_end_iff_no_panic (fEvents : List FrameEvent)
    (hne : FrameEvent.frameEnd 0 ∉ fEvents) :
    ((Instance.render_frame_with fEvents false).1 =
        FrameEvent.frameBegin :: (fEvents ++ [FrameEvent.frameEnd 0])) ∧
    ((Instance.render_frame_with fEvents false).1.count
        (FrameEvent.frameEnd 0) = 1) ∧
    ((Instance.render_frame_with fEvents true).1.count
        (FrameEvent.frameEnd 0) = 0) := by
  refine ⟨rfl, ?_, ?_⟩ <;>
    simp [Instance.render_frame_with, List.count_cons, List.count_append,
      List.count_eq_zero_of_not_mem hne]

/-- Witness for C4's amended theorem at a one-step callback. -/
theorem render_frame_end_iff_no_panic_witness :
    ((Instance.render_frame_with [FrameEvent.callbackStep 0] false).1 =
        FrameEvent.frameBegin ::
          ([FrameEvent.callbackStep 0] ++ [FrameEvent.frameEnd 0])) ∧
    ((Instance.render_frame_with [FrameEvent.callbackStep 0] false).1.count
        (FrameEvent.frameEnd 0) = 1) ∧
    ((Instance.render_frame_with [FrameEvent.callbackStep 0] true).1.count
        (FrameEvent.frameEnd 0) = 0) :=
  render_frame_end_iff_no_panic [FrameEvent.callbackStep 0] (by decide)

/-- C5 as stated is false: with one Instance live and the external init
call reporting success, a second construction is not rejected — it
returns Ok, and two Instances are live. -/
theorem second_instance_not_rejected :
    ((Instance.with_cmdbuf_size 0x40000 (⟨1, none, none⟩ : HwState Unit Unit)
        true).1 = Except.ok ⟨⟩) ∧
    ((Instance.with_cmdbuf_size 0x40000 (⟨1, none, none⟩ : HwState Unit Unit)
        true).2.liveInstances = 2) :=
  ⟨rfl, rfl⟩

/-- C5 amended: the wrapper performs no duplicate-instance check of its
own — construction succeeds exactly when the external init call reports
success, never consulting how many Instances are live, so a second live
Instance arises whenever the external driver reports success again. -/
theorem with_cmdbuf_size_ignores_liveness {B A : Type} (size : Nat)
    (st : HwState B A) (hw : Bool) :
    ((Instance.with_cmdbuf_size size st hw).1 = Except.ok ⟨⟩ ↔ hw = true) ∧
    ((Instance.with_cmdbuf_size size st hw).2.liveInstances =
      if hw then st.liveInstances + 1 else st.liveInstances) := by
  cases hw <;> simp [Instance.with_cmdbuf_size]

/-- C8: construction returns the FailedToInitialize error (the spec's
InitializationFailure) exactly when the init call reports failure, and
an Instance exactly when it reports success; select_render_target
returns InvalidRenderTarget exactly when the driver rejects the target,
and leaves the wrapper-visible state unchanged, so the Instance stays
usable. -/
theorem construction_and_target_errors {B A : Type} (size : Nat)
    (st : HwState B A) (hwInit hwDraw : Bool) :
    ((Instance.with_cmdbuf_size size st hwInit).1 =
        Except.error Error.FailedToInitialize ↔ hwInit = false) ∧
    ((Instance.with_cmdbuf_size size st hwInit).1 = Except.ok ⟨⟩ ↔
        hwInit = true) ∧
    ((Instance.select_render_target st hwDraw).1 =
        Except.error Error.InvalidRenderTarget ↔ hwDraw = false) ∧
    ((Instance.select_render_target st hwDraw).2 = st) := by
  cases hwInit <;> cases hwDraw <;>
    simp [Instance.with_cmdbuf_size, Instance.select_render_target]

end Citro3d
